import Mathlib

/-!
Shallow embedding of the stock-dashboard backend
(apps/stock-dashboard/backend/app.py and config.py) and proofs about it.

Conventions of the embedding:
- A row of the `stock_prices` table is a `Bar`; the table itself is a
  `List Bar` (a bag of rows: the schema created by `init_db` declares no
  primary key and no unique constraint, so the table can hold duplicates).
- Timestamps are `Nat` (only their ordering matters to the code).
- Prices are `ℚ`; the standard deviation of the Bollinger computation is
  carried in `ℝ` because it takes a square root.
- A pandas column of a derived indicator is a function from the row index
  to `Option` of the value: `none` stands for pandas' NaN in the positions
  where the rolling window is not yet full.
- A Flask `return jsonify(body), code` is an explicit response value; a
  `return jsonify(body)` with no code carries Flask's default status 200.
- A psycopg2 connection failure is the Boolean `connOk := false`; an
  exception raised by the j-th `cur.execute` of the insert loop is
  `failAt := some j`.  Because `conn.commit()` runs only after the loop,
  an exception mid-loop means the transaction is never committed and the
  durable store is unchanged.
-/

namespace StockDashboard

/-- ASCII uppercase of one character, modelling Python's `str.upper` on the
ticker symbols the backend handles. -/
def charUpper (c : Char) : Char :=
  if 'a' ≤ c ∧ c ≤ 'z' then Char.ofNat (c.toNat - 32) else c

/-- Python's `ticker.upper()`. -/
def strUpper (s : String) : String := ⟨s.data.map charUpper⟩

/-- One row of the `stock_prices` table created by `init_db`:
`(time, ticker, open, high, low, close, volume)`.  `openP` is the `open`
column (`open` is a Lean keyword). -/
structure Bar where
  time : Nat
  ticker : String
  openP : ℚ
  high : ℚ
  low : ℚ
  close : ℚ
  volume : Int
deriving DecidableEq

/-- Placeholder row used only for `getD`-style total lookups. -/
def defaultBar : Bar := ⟨0, "", 0, 0, 0, 0, 0⟩

/-- Whether two rows agree on a named column (used to decide conflicts). -/
def colEq : String → Bar → Bar → Bool
  | "time", a, b => a.time == b.time
  | "ticker", a, b => a.ticker == b.ticker
  | _, _, _ => false

/-- The part of a table schema that `ON CONFLICT` semantics depend on: the
list of unique constraints, each a list of column names. -/
structure TableSchema where
  uniqueConstraints : List (List String)

/-- The schema `init_db` actually creates for `stock_prices`: the
`CREATE TABLE` statement declares seven columns and no PRIMARY KEY and no
UNIQUE constraint, and the only index added afterwards
(`idx_stock_prices_ticker_time`) is not a unique index. -/
def stockPricesSchema : TableSchema := ⟨[]⟩

/-- PostgreSQL `INSERT ... ON CONFLICT DO NOTHING` against a table with the
given schema: the row is skipped exactly when some unique constraint of the
table is violated by an existing row; otherwise it is appended. -/
def insertOnConflictDoNothing (s : TableSchema) (store : List Bar) (r : Bar) : List Bar :=
  if s.uniqueConstraints.any (fun k => store.any (fun q => k.all (fun c => colEq c q r))) then
    store
  else
    store ++ [r]

/-- The insert loop of `fetch_stock` (app.py lines 127-141): one
`INSERT ... ON CONFLICT DO NOTHING` per bar, with the ticker normalized by
`ticker.upper()`. -/
def upsert (s : TableSchema) (t : String) (bars : List Bar) (store : List Bar) : List Bar :=
  bars.foldl (fun acc b => insertOnConflictDoNothing s acc { b with ticker := strUpper t }) store

/-- Responses of the `/api/fetch/<ticker>` endpoint. -/
inductive FetchResult where
  | noData (status : Nat) (error : String)
  | dbFail (status : Nat) (error : String)
  | ok (status : Nat) (ticker : String) (rowsImported : Nat) (firstDate lastDate : Nat)
deriving DecidableEq

/-- The `/api/fetch/<ticker>` handler `fetch_stock`.  `bars` is what the bar
source (`yf.Ticker(ticker).history`) returned, `store` the durable content of
`stock_prices`, `connOk` whether `get_db_connection` succeeded, and `failAt`
models the j-th `cur.execute` of the insert loop raising.  The result is the
HTTP response together with the durable store afterwards; on a mid-loop
exception the handler returns from the `except` block before `conn.commit()`,
so the store is unchanged. -/
def fetch_stock (t : String) (bars : List Bar) (store : List Bar) (connOk : Bool)
    (failAt : Option Nat) : FetchResult × List Bar :=
  if bars.isEmpty then
    (.noData 404 ("No data found for " ++ t), store)
  else if !connOk then
    (.dbFail 500 "Database connection failed", store)
  else
    match failAt with
    | some j =>
        if j < bars.length then
          (.dbFail 500 "insert failed", store)
        else
          (.ok 200 (strUpper t) bars.length
            (bars.headD defaultBar).time (bars.getLastD defaultBar).time,
           upsert stockPricesSchema t bars store)
    | none =>
        (.ok 200 (strUpper t) bars.length
          (bars.headD defaultBar).time (bars.getLastD defaultBar).time,
         upsert stockPricesSchema t bars store)

/-- Outcome of `Config.validate` (config.py): `ok` when the function returns,
`error msg` when it raises `ValueError(msg)`. -/
inductive ValidateResult where
  | ok
  | error (msg : String)
deriving DecidableEq

/-- The configuration fields `Config.validate` reads. -/
structure Config where
  ENV : String
  DB_PASSWORD : String
deriving DecidableEq

/-- config.py's class attributes: `ENV = os.getenv("ENV", "development")` and
`DB_PASSWORD = os.getenv("DB_PASSWORD", "postgres")`; `none` models an unset
environment variable, in which case the documented default applies. -/
def configFromEnv (env dbPassword : Option String) : Config :=
  { ENV := env.getD "development", DB_PASSWORD := dbPassword.getD "postgres" }

/-- config.py `Config.validate` (lines 19-25): rejects an ENV outside the
three known names, then raises iff `DB_PASSWORD == "password"` and
`ENV == "production"`. -/
def Config.validate (c : Config) : ValidateResult :=
  if ¬ (c.ENV = "development" ∨ c.ENV = "staging" ∨ c.ENV = "production") then
    .error ("Invalid ENV: " ++ c.ENV)
  else if c.DB_PASSWORD = "password" ∧ c.ENV = "production" then
    .error "Default DB_PASSWORD used in production!"
  else
    .ok

/-- An HTTP response consisting of a status code and a body tag. -/
structure ReadyResponse where
  status : Nat
  body : String
deriving DecidableEq

/-- The `/ready` handler (app.py lines 98-105).  The ready branch returns
status 200 explicitly; the not-ready branch is `return jsonify(...)` with no
status code, which Flask serves with its default status 200. -/
def ready (connOk : Bool) : ReadyResponse :=
  if connOk then ⟨200, "ready"⟩ else ⟨200, "not ready"⟩

/-- Pandas `series.rolling(window=w).mean()` at row index `i`: the mean of
the `w` values ending at `i`, NaN (`none`) while the window is not full. -/
def rollingMean (w : Nat) (xs : List ℚ) (i : Nat) : Option ℚ :=
  if w ≤ i + 1 ∧ i < xs.length then
    some ((((xs.drop (i + 1 - w)).take w).sum) / w)
  else
    none

/-- The variance that pandas `series.rolling(window=w).std()` takes the
square root of: mean-centered sum of squares over the window divided by
`w - 1` (pandas' default `ddof = 1`, the sample convention). -/
def sampleVar (w : Nat) (xs : List ℚ) (i : Nat) : ℚ :=
  ((((xs.drop (i + 1 - w)).take w).map
      (fun x => (x - (((xs.drop (i + 1 - w)).take w).sum) / w) ^ 2)).sum) / ((w : ℚ) - 1)

/-- Pandas `series.rolling(window=w).std()` at row index `i`. -/
noncomputable def rollingStd (w : Nat) (xs : List ℚ) (i : Nat) : Option ℝ :=
  if w ≤ i + 1 ∧ i < xs.length then
    some (Real.sqrt ((sampleVar w xs i : ℚ) : ℝ))
  else
    none

/-- app.py line 189: `df["sma_20"] = df["close"].rolling(window=20).mean()`. -/
def sma_20 (xs : List ℚ) (i : Nat) : Option ℚ := rollingMean 20 xs i

/-- app.py line 190: `df["sma_50"] = df["close"].rolling(window=50).mean()`. -/
def sma_50 (xs : List ℚ) (i : Nat) : Option ℚ := rollingMean 50 xs i

/-- app.py line 191: `df["sma_100"] = df["close"].rolling(window=100).mean()`. -/
def sma_100 (xs : List ℚ) (i : Nat) : Option ℚ := rollingMean 100 xs i

/-- app.py line 194: `df["bb_mid"] = df["close"].rolling(window=20).mean()`. -/
def bb_mid (xs : List ℚ) (i : Nat) : Option ℚ := rollingMean 20 xs i

/-- app.py line 195: `df["bb_std"] = df["close"].rolling(window=20).std()`. -/
noncomputable def bb_std (xs : List ℚ) (i : Nat) : Option ℝ := rollingStd 20 xs i

/-- app.py line 196: `df["bb_upper"] = df["bb_mid"] + (df["bb_std"] * 2)`;
NaN in either operand propagates to NaN. -/
noncomputable def bb_upper (xs : List ℚ) (i : Nat) : Option ℝ :=
  match bb_mid xs i, bb_std xs i with
  | some m, some s => some ((m : ℝ) + s * 2)
  | _, _ => none

/-- app.py line 197: `df["bb_lower"] = df["bb_mid"] - (df["bb_std"] * 2)`;
NaN in either operand propagates to NaN. -/
noncomputable def bb_lower (xs : List ℚ) (i : Nat) : Option ℝ :=
  match bb_mid xs i, bb_std xs i with
  | some m, some s => some ((m : ℝ) - s * 2)
  | _, _ => none

/-- SQL comparison used by `ORDER BY time ASC` and `df.sort_values("time")`. -/
def barLe (a b : Bar) : Prop := a.time ≤ b.time

instance : DecidableRel barLe := fun a b => Nat.decLe a.time b.time

instance : IsTotal Bar barLe := ⟨fun a b => Nat.le_total a.time b.time⟩

instance : IsTrans Bar barLe := ⟨fun _ _ _ => Nat.le_trans⟩

/-- Ascending stable sort by `time`, modelling the `ORDER BY time ASC` of the
SQL query (and the redundant `df.sort_values("time")` after it). -/
def sortByTime (rows : List Bar) : List Bar := List.insertionSort barLe rows

/-- The rows of `stock_prices` the `/api/indicators/<ticker>` query returns:
`WHERE ticker = %s ORDER BY time ASC` with the ticker upper-cased. -/
def queryRows (store : List Bar) (t : String) : List Bar :=
  sortByTime (store.filter (fun b => b.ticker == strUpper t))

/-- One record of the indicator response: the selected columns of the row
plus the derived indicator columns (`none` = NaN). -/
structure IndicatorRecord where
  time : Nat
  ticker : String
  close : ℚ
  volume : Int
  sma20 : Option ℚ
  sma50 : Option ℚ
  sma100 : Option ℚ
  bbMid : Option ℚ
  bbStd : Option ℝ
  bbUpper : Option ℝ
  bbLower : Option ℝ

/-- The data frame built by `get_indicators` after all indicator columns are
added, row by row (`df.to_dict("records")`). -/
noncomputable def recordsOfRows (rows : List Bar) : List IndicatorRecord :=
  let closes := rows.map Bar.close
  (List.range rows.length).map (fun i =>
    { time := (rows.getD i defaultBar).time
      ticker := (rows.getD i defaultBar).ticker
      close := (rows.getD i defaultBar).close
      volume := (rows.getD i defaultBar).volume
      sma20 := sma_20 closes i
      sma50 := sma_50 closes i
      sma100 := sma_100 closes i
      bbMid := bb_mid closes i
      bbStd := bb_std closes i
      bbUpper := bb_upper closes i
      bbLower := bb_lower closes i })

/-- The full record list `get_indicators` serializes for a ticker. -/
noncomputable def indicatorRecords (store : List Bar) (t : String) : List IndicatorRecord :=
  recordsOfRows (queryRows store t)

/-- Responses of the `/api/indicators/<ticker>` endpoint. -/
inductive IndicatorsResult where
  | dbFail (status : Nat) (error : String)
  | noData (status : Nat) (error : String)
  | ok (status : Nat) (ticker : String) (data : List IndicatorRecord)

/-- The `/api/indicators/<ticker>` handler `get_indicators` (app.py lines
158-209).  The empty-rows branch is `return jsonify({"error": ...})` with no
status code, served with Flask's default status 200. -/
noncomputable def get_indicators (store : List Bar) (t : String) (connOk : Bool) :
    IndicatorsResult :=
  if !connOk then
    .dbFail 500 "Database connection failed"
  else if (queryRows store t).isEmpty then
    .noData 200 ("No data for " ++ t)
  else
    .ok 200 (strUpper t) (indicatorRecords store t)

/-! Helper lemmas about the rolling columns. -/

/-- A rolling mean is NaN where its window is not full (or past the end). -/
theorem rollingMean_eq_none (w : Nat) (xs : List ℚ) (i : Nat)
    (h : ¬(w ≤ i + 1 ∧ i < xs.length)) : rollingMean w xs i = none := by
  unfold rollingMean
  exact if_neg h

/-- A rolling mean where the window is full. -/
theorem rollingMean_eq_some (w : Nat) (xs : List ℚ) (i : Nat)
    (h : w ≤ i + 1 ∧ i < xs.length) :
    rollingMean w xs i = some ((((xs.drop (i + 1 - w)).take w).sum) / w) := by
  unfold rollingMean
  exact if_pos h

/-- A rolling standard deviation is NaN where its window is not full. -/
theorem rollingStd_eq_none (w : Nat) (xs : List ℚ) (i : Nat)
    (h : ¬(w ≤ i + 1 ∧ i < xs.length)) : rollingStd w xs i = none := by
  unfold rollingStd
  exact if_neg h

/-- A rolling standard deviation where the window is full. -/
theorem rollingStd_eq_some (w : Nat) (xs : List ℚ) (i : Nat)
    (h : w ≤ i + 1 ∧ i < xs.length) :
    rollingStd w xs i = some (Real.sqrt ((sampleVar w xs i : ℚ) : ℝ)) := by
  unfold rollingStd
  exact if_pos h

/-- All four Bollinger columns are NaN where the 20-row window is not full. -/
theorem bbCols_eq_none (xs : List ℚ) (i : Nat) (h : ¬(20 ≤ i + 1 ∧ i < xs.length)) :
    bb_mid xs i = none ∧ bb_std xs i = none ∧ bb_upper xs i = none ∧ bb_lower xs i = none := by
  have hm : bb_mid xs i = none := rollingMean_eq_none 20 xs i h
  have hs : bb_std xs i = none := rollingStd_eq_none 20 xs i h
  refine ⟨hm, hs, ?_, ?_⟩
  · unfold bb_upper
    rw [hm, hs]
  · unfold bb_lower
    rw [hm, hs]

/-- All four Bollinger columns where the 20-row window is full. -/
theorem bbCols_eq_some (xs : List ℚ) (i : Nat) (h : 20 ≤ i + 1 ∧ i < xs.length) :
    bb_mid xs i = some ((((xs.drop (i + 1 - 20)).take 20).sum) / 20) ∧
    bb_std xs i = some (Real.sqrt ((sampleVar 20 xs i : ℚ) : ℝ)) ∧
    bb_upper xs i = some (((((xs.drop (i + 1 - 20)).take 20).sum / 20 : ℚ) : ℝ) +
        Real.sqrt ((sampleVar 20 xs i : ℚ) : ℝ) * 2) ∧
    bb_lower xs i = some (((((xs.drop (i + 1 - 20)).take 20).sum / 20 : ℚ) : ℝ) -
        Real.sqrt ((sampleVar 20 xs i : ℚ) : ℝ) * 2) := by
  have hm : bb_mid xs i = some ((((xs.drop (i + 1 - 20)).take 20).sum) / 20) :=
    rollingMean_eq_some 20 xs i h
  have hs : bb_std xs i = some (Real.sqrt ((sampleVar 20 xs i : ℚ) : ℝ)) :=
    rollingStd_eq_some 20 xs i h
  refine ⟨hm, hs, ?_, ?_⟩
  · unfold bb_upper
    rw [hm, hs]
  · unfold bb_lower
    rw [hm, hs]

/-- The variance under pandas' rolling std is nonnegative. -/
theorem sampleVar_nonneg (w : Nat) (xs : List ℚ) (i : Nat) (hw : 1 ≤ w) :
    0 ≤ sampleVar w xs i := by
  unfold sampleVar
  apply div_nonneg
  · apply List.sum_nonneg
    intro x hx
    simp only [List.mem_map] at hx
    obtain ⟨y, -, rfl⟩ := hx
    positivity
  · have : (1 : ℚ) ≤ (w : ℚ) := by exact_mod_cast hw
    linarith

/-! Concrete rows used in concrete evaluations. -/

/-- A concrete bar at time 1. -/
def aaplBar : Bar := ⟨1, "AAPL", 100, 110, 95, 105, 1000⟩

/-- A concrete bar at time 2. -/
def aaplBar2 : Bar := ⟨2, "AAPL", 105, 112, 101, 108, 1200⟩

/-- A concrete bar at time 3. -/
def aaplBar3 : Bar := ⟨3, "AAPL", 108, 115, 104, 112, 900⟩

/-- C1: the ingestion upsert is NOT idempotent on the schema `init_db`
creates.  The table has no unique constraint, so
`INSERT ... ON CONFLICT DO NOTHING` never finds a conflict: upserting the
same single bar twice leaves two identical rows, not one — the row count
after two upserts differs from the row count after one. -/
theorem upsert_twice_duplicates_row :
    stockPricesSchema.uniqueConstraints = [] ∧
    upsert stockPricesSchema "AAPL" [aaplBar] [] = [{ aaplBar with ticker := "AAPL" }] ∧
    upsert stockPricesSchema "AAPL" [aaplBar]
        (upsert stockPricesSchema "AAPL" [aaplBar] []) =
      [{ aaplBar with ticker := "AAPL" }, { aaplBar with ticker := "AAPL" }] ∧
    (upsert stockPricesSchema "AAPL" [aaplBar]
        (upsert stockPricesSchema "AAPL" [aaplBar] [])).length ≠
      (upsert stockPricesSchema "AAPL" [aaplBar] []).length := by
  decide

/-- C2 counterexample: ingesting three bars into an empty store with the
store raising on the second `cur.execute` leaves the first (successfully
executed) bar NOT written — the durable store is still empty, because
`conn.commit()` is never reached — and the response is the generic
`{"error": ...}` 500 body, which carries no count of succeeded versus
unattempted bars. -/
theorem midbatch_failure_drops_written_bars :
    fetch_stock "AAPL" [aaplBar, aaplBar2, aaplBar3] [] true (some 1) =
      (.dbFail 500 "insert failed", []) ∧
    { aaplBar with ticker := "AAPL" } ∉
      (fetch_stock "AAPL" [aaplBar, aaplBar2, aaplBar3] [] true (some 1)).2 := by
  decide

/-- C2 (amended): when the store fails partway through the batch, the
handler returns the generic 500 error response — with no progress counts —
and no bar of the batch is durably written: the committed store is exactly
the store from before the call. -/
theorem midbatch_failure_uncommitted (t : String) (bars store : List Bar) (j : Nat)
    (hne : bars ≠ []) (hj : j < bars.length) :
    fetch_stock t bars store true (some j) = (.dbFail 500 "insert failed", store) := by
  unfold fetch_stock
  simp [hne, hj]

/-- C2 witness: the amended statement at a concrete input. -/
theorem midbatch_failure_uncommitted_witness :
    ([aaplBar, aaplBar2] : List Bar) ≠ [] ∧ 1 < ([aaplBar, aaplBar2] : List Bar).length ∧
    fetch_stock "AAPL" [aaplBar, aaplBar2] [aaplBar3] true (some 1) =
      (.dbFail 500 "insert failed", [aaplBar3]) :=
  ⟨by decide, by decide,
    midbatch_failure_uncommitted "AAPL" [aaplBar, aaplBar2] [aaplBar3] 1 (by decide) (by decide)⟩

/-- C3: with ENV set to "production" and DB_PASSWORD left unset — so it
takes its documented default "postgres" — `Config.validate` accepts the
configuration instead of raising: the guard compares against the literal
"password", which is not the default the class declares. -/
theorem validate_accepts_default_password_in_production :
    (configFromEnv (some "production") none).DB_PASSWORD = "postgres" ∧
    Config.validate (configFromEnv (some "production") none) = .ok ∧
    Config.validate ⟨"production", "password"⟩ =
      .error "Default DB_PASSWORD used in production!" := by
  decide

/-- C6: when the bar source returns zero bars, `fetch_stock` answers 404
with the no-data error body and the store is returned unchanged — the
handler returns before any database write, whatever the connection state
or later store behavior would have been. -/
theorem fetch_empty_source_404_no_writes (t : String) (store : List Bar)
    (connOk : Bool) (failAt : Option Nat) :
    fetch_stock t [] store connOk failAt =
      (.noData 404 ("No data found for " ++ t), store) := rfl

/-- C7: for a ticker with no stored rows, `get_indicators` returns the
client-visible no-data error payload with status 200 — no explicit status
is attached to that `jsonify`, so Flask's default applies — unlike
`fetch_stock`, which uses 404 for its empty-data case. -/
theorem indicators_no_data_not_404 (t : String) (store : List Bar)
    (h : store.filter (fun b => b.ticker == strUpper t) = []) :
    get_indicators store t true = .noData 200 ("No data for " ++ t) ∧ (200 : Nat) ≠ 404 := by
  refine ⟨?_, by decide⟩
  unfold get_indicators queryRows sortByTime
  simp [h]

/-- C7 witness: the empty store at a concrete ticker. -/
theorem indicators_no_data_not_404_witness :
    ([] : List Bar).filter (fun b => b.ticker == strUpper "AAPL") = [] ∧
    (get_indicators [] "AAPL" true = .noData 200 ("No data for " ++ "AAPL") ∧ (200 : Nat) ≠ 404) :=
  ⟨rfl, indicators_no_data_not_404 "AAPL" [] rfl⟩

/-- C8: on a successful ingestion the response reports the count of bars
the source returned — `len(df)`, independent of how many rows the store
write added — and the date range from the first to the last bar of the
fetched sequence. -/
theorem fetch_reports_source_count_and_range (t : String) (bars store : List Bar)
    (h : bars ≠ []) :
    fetch_stock t bars store true none =
      (.ok 200 (strUpper t) bars.length (bars.head h).time ((bars.getLast h).time),
       upsert stockPricesSchema t bars store) := by
  unfold fetch_stock
  simp [h, List.headD_eq_head?, List.head?_eq_head, List.getLastD_eq_getLast?,
    List.getLast?_eq_getLast]

/-- C8 witness: two concrete bars; the count is 2 and the range runs from
time 1 to time 2. -/
theorem fetch_reports_source_count_and_range_witness :
    ([aaplBar, aaplBar2] : List Bar) ≠ [] ∧
    fetch_stock "aapl" [aaplBar, aaplBar2] [] true none =
      (.ok 200 (strUpper "aapl") 2 1 2,
       upsert stockPricesSchema "aapl" [aaplBar, aaplBar2] []) :=
  ⟨by decide, fetch_reports_source_count_and_range "aapl" [aaplBar, aaplBar2] [] (by decide)⟩

/-- A concrete close series of 20 equal prices. -/
def c20 : List ℚ := List.replicate 20 1

/-- A concrete close series of 50 equal prices. -/
def c50 : List ℚ := List.replicate 50 1

/-- C4: from the 20th record on, `bb_mid` is the same column as `sma_20`;
`bb_std` is defined and is the nonnegative square root of the
mean-centered sum of squares over `close[i-19..i]` divided by `20 - 1`
(the sample convention, pandas' default `ddof = 1`);
`bb_upper`/`bb_lower` are `bb_mid` plus/minus twice `bb_std`; and `bb_std`
is undefined for the first 19 records. -/
theorem bollinger_bands_sample_std (closes : List ℚ) (i : Nat) (h19 : 19 ≤ i)
    (hlen : i < closes.length) :
    bb_mid closes i = sma_20 closes i ∧
    (∃ m s, bb_mid closes i = some m ∧ bb_std closes i = some s ∧ 0 ≤ s ∧
      s ^ 2 = (((((closes.drop (i + 1 - 20)).take 20).map
          (fun x => (x - (((closes.drop (i + 1 - 20)).take 20).sum) / 20) ^ 2)).sum /
          ((20 : ℚ) - 1) : ℚ) : ℝ) ∧
      bb_upper closes i = some ((m : ℝ) + s * 2) ∧
      bb_lower closes i = some ((m : ℝ) - s * 2)) ∧
    (∀ j, j < 19 → bb_std closes j = none) := by
  have hcond : 20 ≤ i + 1 ∧ i < closes.length := ⟨by omega, hlen⟩
  obtain ⟨hm, hs, hu, hl⟩ := bbCols_eq_some closes i hcond
  refine ⟨rfl, ⟨_, _, hm, hs, Real.sqrt_nonneg _, ?_, hu, hl⟩, ?_⟩
  · have hv : (0 : ℚ) ≤ sampleVar 20 closes i := sampleVar_nonneg 20 closes i (by omega)
    rw [Real.sq_sqrt (by exact_mod_cast hv)]
    norm_cast
    unfold sampleVar
    norm_num
  · intro j hj
    exact (bbCols_eq_none closes j (by omega)).2.1

/-- C4 witness: the concrete 20-price series at index 19. -/
theorem bollinger_bands_sample_std_witness :
    19 ≤ 19 ∧ 19 < c20.length ∧
    (bb_mid c20 19 = sma_20 c20 19 ∧
      (∃ m s, bb_mid c20 19 = some m ∧ bb_std c20 19 = some s ∧ 0 ≤ s ∧
        s ^ 2 = (((((c20.drop (19 + 1 - 20)).take 20).map
            (fun x => (x - (((c20.drop (19 + 1 - 20)).take 20).sum) / 20) ^ 2)).sum /
            ((20 : ℚ) - 1) : ℚ) : ℝ) ∧
        bb_upper c20 19 = some ((m : ℝ) + s * 2) ∧
        bb_lower c20 19 = some ((m : ℝ) - s * 2)) ∧
      (∀ j, j < 19 → bb_std c20 j = none)) :=
  ⟨by decide, by decide, bollinger_bands_sample_std c20 19 (by decide) (by decide)⟩

/-- C5: for each of the three windows, the SMA column equals the mean of the
trailing window once the window fits inside the history and is undefined on
the first `w - 1` records; with exactly 19 stored closes every Bollinger
column is undefined everywhere; with exactly 20 they are defined exactly at
the last record; and `sma_50` is undefined before the 50th record and
defined from it onward whenever the history has at least 50 records. -/
theorem sma_window_definedness (w : Nat) (closes : List ℚ)
    (hw : w = 20 ∨ w = 50 ∨ w = 100) :
    (∀ i, w ≤ i + 1 → i < closes.length →
        rollingMean w closes i = some ((((closes.take (i + 1)).drop (i + 1 - w)).sum) / w)) ∧
    (∀ i, i + 1 < w → rollingMean w closes i = none) ∧
    (closes.length = 19 → ∀ i,
        bb_mid closes i = none ∧ bb_upper closes i = none ∧ bb_lower closes i = none) ∧
    (closes.length = 20 →
        (∀ i, i ≠ 19 →
            bb_mid closes i = none ∧ bb_upper closes i = none ∧ bb_lower closes i = none) ∧
        (∃ m u l, bb_mid closes 19 = some m ∧ bb_upper closes 19 = some u ∧
            bb_lower closes 19 = some l)) ∧
    (50 ≤ closes.length →
        (∀ i, i < 49 → sma_50 closes i = none) ∧
        (∀ i, 49 ≤ i → i < closes.length → ∃ v, sma_50 closes i = some v)) := by
  refine ⟨?_, ?_, ?_, ?_, ?_⟩
  · intro i hwi hil
    rw [rollingMean_eq_some w closes i ⟨hwi, hil⟩, List.drop_take]
    have hsub : i + 1 - (i + 1 - w) = w := by omega
    rw [hsub]
  · intro i hiw
    exact rollingMean_eq_none w closes i (by omega)
  · intro hlen i
    obtain ⟨hm, -, hu, hl⟩ := bbCols_eq_none closes i (by omega)
    exact ⟨hm, hu, hl⟩
  · intro hlen
    constructor
    · intro i hne
      obtain ⟨hm, -, hu, hl⟩ := bbCols_eq_none closes i (by omega)
      exact ⟨hm, hu, hl⟩
    · obtain ⟨hm, -, hu, hl⟩ := bbCols_eq_some closes 19 (by omega)
      exact ⟨_, _, _, hm, hu, hl⟩
  · intro hlen
    constructor
    · intro i hi
      exact rollingMean_eq_none 50 closes i (by omega)
    · intro i h49 hil
      exact ⟨_, rollingMean_eq_some 50 closes i ⟨by omega, hil⟩⟩

/-- C5 witness: the window 50 on the concrete 50-price series. -/
theorem sma_window_definedness_witness :
    (50 = 20 ∨ 50 = 50 ∨ 50 = 100) ∧
    ((∀ i, 50 ≤ i + 1 → i < c50.length →
        rollingMean 50 c50 i = some ((((c50.take (i + 1)).drop (i + 1 - 50)).sum) / 50)) ∧
    (∀ i, i + 1 < 50 → rollingMean 50 c50 i = none) ∧
    (c50.length = 19 → ∀ i,
        bb_mid c50 i = none ∧ bb_upper c50 i = none ∧ bb_lower c50 i = none) ∧
    (c50.length = 20 →
        (∀ i, i ≠ 19 →
            bb_mid c50 i = none ∧ bb_upper c50 i = none ∧ bb_lower c50 i = none) ∧
        (∃ m u l, bb_mid c50 19 = some m ∧ bb_upper c50 19 = some u ∧
            bb_lower c50 19 = some l)) ∧
    (50 ≤ c50.length →
        (∀ i, i < 49 → sma_50 c50 i = none) ∧
        (∀ i, 49 ≤ i → i < c50.length → ∃ v, sma_50 c50 i = some v))) :=
  ⟨by decide, sma_window_definedness 50 c50 (by decide)⟩

/-- Mapping an indexed lookup over the index range of a list is mapping over
the list. -/
theorem range_map_getD {α β : Type} (l : List α) (d : α) (f : α → β) :
    (List.range l.length).map (fun i => f (l.getD i d)) = l.map f := by
  apply List.ext_getElem
  · simp
  · intro i h1 h2
    simp only [List.length_map, List.length_range] at h1
    simp [List.getD_eq_getElem?_getD, List.getElem?_eq_getElem, h1]

/-- The record list carries exactly the times of the underlying rows. -/
theorem records_map_time (rows : List Bar) :
    (recordsOfRows rows).map IndicatorRecord.time = rows.map Bar.time := by
  unfold recordsOfRows
  rw [List.map_map]
  exact range_map_getD rows defaultBar Bar.time

/-- The record list has exactly one record per underlying row. -/
theorem records_length (rows : List Bar) : (recordsOfRows rows).length = rows.length := by
  unfold recordsOfRows
  rw [List.length_map, List.length_range]

/-- The sorted query output is a permutation of the ticker's stored rows. -/
theorem queryRows_perm (store : List Bar) (t : String) :
    (queryRows store t).Perm (store.filter (fun b => b.ticker == strUpper t)) :=
  List.perm_insertionSort barLe _

/-- The sorted query output is ascending in `time`. -/
theorem queryRows_sorted (store : List Bar) (t : String) :
    (queryRows store t).Pairwise barLe :=
  List.sorted_insertionSort barLe _

/-- C9: for a ticker whose stored bars carry pairwise distinct times, the
record sequence the indicator computation returns is strictly increasing in
`time`, and its length equals the number of stored bars of the ticker — the
engine does not truncate to a display window. -/
theorem indicators_strictly_increasing_full_length (store : List Bar) (t : String)
    (h2 : 2 ≤ (store.filter (fun b => b.ticker == strUpper t)).length)
    (hnd : ((store.filter (fun b => b.ticker == strUpper t)).map Bar.time).Nodup) :
    (indicatorRecords store t).Pairwise (fun a b => a.time < b.time) ∧
    (indicatorRecords store t).length =
      (store.filter (fun b => b.ticker == strUpper t)).length := by
  have hperm := queryRows_perm store t
  have hsorted := queryRows_sorted store t
  have hndrows : ((queryRows store t).map Bar.time).Nodup :=
    ((hperm.map Bar.time).nodup_iff).mpr hnd
  have hne : (queryRows store t).Pairwise (fun a b => a.time ≠ b.time) :=
    List.pairwise_map.mp hndrows
  have hlt : (queryRows store t).Pairwise (fun a b => a.time < b.time) :=
    (hsorted.and hne).imp (fun h => lt_of_le_of_ne h.1 h.2)
  constructor
  · have : ((indicatorRecords store t).map IndicatorRecord.time).Pairwise (· < ·) := by
      rw [indicatorRecords, records_map_time]
      exact List.pairwise_map.mpr hlt
    exact List.pairwise_map.mp this
  · rw [indicatorRecords, records_length]
    exact hperm.length_eq

/-- C9 witness: two stored bars with distinct times, given out of order. -/
theorem indicators_strictly_increasing_full_length_witness :
    2 ≤ (([aaplBar2, aaplBar] : List Bar).filter (fun b => b.ticker == strUpper "AAPL")).length ∧
    ((([aaplBar2, aaplBar] : List Bar).filter
        (fun b => b.ticker == strUpper "AAPL")).map Bar.time).Nodup ∧
    ((indicatorRecords [aaplBar2, aaplBar] "AAPL").Pairwise (fun a b => a.time < b.time) ∧
      (indicatorRecords [aaplBar2, aaplBar] "AAPL").length =
        (([aaplBar2, aaplBar] : List Bar).filter
          (fun b => b.ticker == strUpper "AAPL")).length) :=
  ⟨by decide, by decide,
    indicators_strictly_increasing_full_length [aaplBar2, aaplBar] "AAPL" (by decide) (by decide)⟩

/-- C10: the `/ready` endpoint answers HTTP 200 in every database state —
the not-ready branch attaches no status code, so Flask serves its default
200 — hence a probe that inspects only the status cannot tell ready from
not-ready. -/
theorem ready_always_200 (connOk : Bool) :
    (ready connOk).status = 200 ∧ (ready connOk).status = (ready true).status := by
  cases connOk <;> exact ⟨rfl, rfl⟩

end StockDashboard
